import Mathlib

/-!
Verification of the rental-property backend's two core algorithms:

* the availability filter `PropertyFilter.filter_available_dates`
  (src/backend/rentals/filters.py, lines 188-242), and
* the dynamic pricing calculator `PropertyViewSet.calculate_price`
  (src/backend/rentals/views.py, lines 436-559),

together with the `PricingRule` default ordering declared in
src/backend/rentals/models.py (`Meta.ordering = ['start_date']`).

Modelling choices:

* Calendar dates are modelled as `Int` day numbers; `date + timedelta(days=1)`
  is `d + 1` and `(check_out - check_in).days` is `check_out - check_in`.
* Python `Decimal` amounts (base price, multipliers, totals) are modelled as
  `ℚ`, exact rational arithmetic.
* Django query parameters that may be absent are modelled as `Option` values
  (`None` for an absent parameter).
* The Django queryset of properties is modelled as a `List`; `.exclude(q)`
  over a condition on the related bookings removes exactly the properties
  having some booking satisfying all conjuncts of `q`.
-/

deriving instance DecidableEq for Except

namespace Rentals

/-- Booking status choices, from `Booking.BOOKING_STATUS` in models.py. -/
inductive BookingStatus where
  | confirmed
  | pending
  | cancelled
  | completed
deriving DecidableEq, Repr

/-- A booking row: `check_in`, `check_out` (dates as day numbers) and status,
from the `Booking` model in models.py. -/
structure Booking where
  check_in : Int
  check_out : Int
  status : BookingStatus
deriving DecidableEq, Repr

/-- A pricing rule row: inclusive date interval `[start_date, end_date]` and a
decimal `price_multiplier`, from the `PricingRule` model in models.py. -/
structure PricingRule where
  start_date : Int
  end_date : Int
  price_multiplier : ℚ
deriving DecidableEq, Repr

/-- The fields of the `Property` model used by the two algorithms:
`base_price_per_night` (Decimal) and `currency`, plus the related rows
(`pricing_rules`, `bookings`) that the ORM reaches through the foreign keys. -/
structure Property where
  id : Nat
  base_price_per_night : ℚ
  currency : String
  pricing_rules : List PricingRule
  bookings : List Booking
deriving DecidableEq, Repr

/-! ## Availability filter (filters.py, `filter_available_dates`) -/

/-- The overlap condition of the `Q` object in filters.py lines 235-239:
`bookings__status='confirmed'` AND `bookings__check_in__lte=check_out`
AND `bookings__check_out__gte=check_in`. -/
def overlappingBooking (check_in check_out : Int) (b : Booking) : Bool :=
  decide (b.status = BookingStatus.confirmed) &&
  decide (b.check_in ≤ check_out) && decide (b.check_out ≥ check_in)

/-- `PropertyFilter.filter_available_dates` (filters.py lines 188-242).
Reads the raw `check_in` / `check_out` query parameters; if either is absent
it returns the queryset unchanged, otherwise it excludes every property that
has a booking matching `overlappingBooking`. -/
def filter_available_dates (queryset : List Property)
    (check_in? check_out? : Option Int) : List Property :=
  match check_in?, check_out? with
  | some check_in, some check_out =>
      queryset.filter (fun p => ! p.bookings.any (overlappingBooking check_in check_out))
  | _, _ => queryset

/-! ## Pricing calculator (views.py, `calculate_price`) -/

/-- One entry of the `daily_breakdown` list built in views.py lines 529-535. -/
structure DailyPrice where
  date : Int
  base_price : ℚ
  multiplier : ℚ
  final_price : ℚ
  pricing_rule : String
deriving DecidableEq, Repr

/-- The response payload of `calculate_price` (views.py lines 542-553),
restricted to the computed fields the spec talks about. -/
structure PriceBreakdown where
  nights : Int
  total_price : ℚ
  average_price_per_night : ℚ
  currency : String
  daily_breakdown : List DailyPrice
deriving DecidableEq, Repr

/-- Whether a pricing rule applies to a date: the loop condition
`rule.start_date <= current_date <= rule.end_date` in views.py line 520. -/
def ruleMatches (d : Int) (rule : PricingRule) : Bool :=
  decide (rule.start_date ≤ d) && decide (d ≤ rule.end_date)

/-- The label attached to a matched rule in views.py line 522:
`f'Seasonal ({rule.start_date} to {rule.end_date})'`. -/
def seasonalLabel (rule : PricingRule) : String :=
  "Seasonal (" ++ toString rule.start_date ++ " to " ++ toString rule.end_date ++ ")"

/-- The inner `for rule in pricing_rules: ... break` loop of views.py
lines 516-523: start from multiplier `1.0` and label `'Base Rate'`, take the
first rule whose interval contains the date. -/
def resolveRule (pricing_rules : List PricingRule) (d : Int) : ℚ × String :=
  match pricing_rules.find? (ruleMatches d) with
  | some rule => (rule.price_multiplier, seasonalLabel rule)
  | none => (1, "Base Rate")

/-- The body of the `while current_date < check_out` loop for one date
(views.py lines 515-535): resolve the rule, price the night, build the
breakdown entry. -/
def nightEntry (base_price_per_night : ℚ) (pricing_rules : List PricingRule)
    (d : Int) : DailyPrice :=
  let resolved := resolveRule pricing_rules d
  { date := d
    base_price := base_price_per_night
    multiplier := resolved.1
    final_price := base_price_per_night * resolved.1
    pricing_rule := resolved.2 }

/-- The sequence of dates visited by the `while current_date < check_out`
loop starting at `current` and stepping by one day: the loop runs
`(check_out - check_in).days` times, so we unfold that count. -/
def stayDates (current : Int) : Nat → List Int
  | 0 => []
  | n + 1 => current :: stayDates (current + 1) n

/-- The accumulation in views.py lines 510-537: `total_price` starts at
`Decimal('0.00')` and each iteration does `total_price += night_price` and
`daily_prices.append(...)`. -/
def priceLoop (base_price_per_night : ℚ) (pricing_rules : List PricingRule)
    (days : List Int) : ℚ × List DailyPrice :=
  days.foldl
    (fun acc d =>
      let entry := nightEntry base_price_per_night pricing_rules d
      (acc.1 + entry.final_price, acc.2 ++ [entry]))
    (0, [])

/-- The guarded average of views.py line 540:
`total_price / nights if nights > 0 else Decimal('0.00')`. -/
def safeAverage (total_price : ℚ) (nights : Int) : ℚ :=
  if nights > 0 then total_price / (nights : ℚ) else 0

/-- `PropertyViewSet.calculate_price` (views.py lines 493-553) after date
parsing: reject `check_out <= check_in` with a 400 error, otherwise price
every night of `[check_in, check_out)` and assemble the response. -/
def calculate_price (prop : Property) (check_in check_out : Int) :
    Except String PriceBreakdown :=
  if check_out ≤ check_in then
    Except.error "check_out must be after check_in"
  else
    let nights : Int := check_out - check_in
    let result := priceLoop prop.base_price_per_night prop.pricing_rules
      (stayDates check_in (check_out - check_in).toNat)
    Except.ok
      { nights := nights
        total_price := result.1
        average_price_per_night := safeAverage result.1 nights
        currency := prop.currency
        daily_breakdown := result.2 }

/-- The read-only endpoint as a state transformer over the stored data: the
handler in views.py performs no ORM writes, so the store passes through
unchanged. -/
def calculate_price_endpoint (store : Property) (check_in check_out : Int) :
    (Except String PriceBreakdown) × Property :=
  (calculate_price store check_in check_out, store)

/-- The number of breakdown entries charged at a given multiplier value. -/
def nightsUsingMultiplier (r : PriceBreakdown) (m : ℚ) : Nat :=
  (r.daily_breakdown.filter (fun dp => decide (dp.multiplier = m))).length

/-!
Concrete data for the spec's scenarios. Dates use the day-number encoding
with 2025-11-30 as day 0, so 2025-12-01 is day 1, 2025-12-04 is day 4,
2025-12-05 is day 5, and so on.
-/

/-- Scenario A property: base price 100.00, no rules, no bookings. -/
def propA : Property := ⟨1, 100, "EUR", [], []⟩

/-- Scenario A expected breakdown: three base-rate nights, total 300.00. -/
def resA : PriceBreakdown :=
  ⟨3, 300, 100, "EUR",
    [⟨1, 100, 1, 100, "Base Rate"⟩,
     ⟨2, 100, 1, 100, "Base Rate"⟩,
     ⟨3, 100, 1, 100, "Base Rate"⟩]⟩

/-- Scenario B property: base price 100.00, one rule
{start=2025-12-02, end=2025-12-03, multiplier=1.5}. -/
def propB : Property := ⟨2, 100, "EUR", [⟨2, 3, 3 / 2⟩], []⟩

/-- Scenario B expected breakdown: 100 + 150 + 150 = 400.00. -/
def resB : PriceBreakdown :=
  ⟨3, 400, 400 / 3, "EUR",
    [⟨1, 100, 1, 100, "Base Rate"⟩,
     ⟨2, 100, 3 / 2, 150, "Seasonal (2 to 3)"⟩,
     ⟨3, 100, 3 / 2, 150, "Seasonal (2 to 3)"⟩]⟩

/-- Scenario C property: one confirmed booking 2025-12-05 .. 2025-12-10. -/
def propC : Property := ⟨3, 100, "EUR", [], [⟨5, 10, BookingStatus.confirmed⟩]⟩

/-- A property with two single-day rules on the same day (day 1) with
different multipliers; exercises first-match preemption. -/
def propTwoRules : Property := ⟨7, 100, "EUR", [⟨1, 1, 2⟩, ⟨1, 1, 3⟩], []⟩

/-- The breakdown `calculate_price` produces for `propTwoRules` on the stay
[1, 3): the first rule's multiplier 2 is charged on night 1, the base rate
on night 2, and the second rule's multiplier 3 nowhere. -/
def resTwoRules : PriceBreakdown :=
  ⟨2, 300, 150, "EUR",
    [⟨1, 100, 2, 200, "Seasonal (1 to 1)"⟩,
     ⟨2, 100, 1, 100, "Base Rate"⟩]⟩

/-! ## Helper lemmas -/

lemma stayDates_length (c : Int) (n : Nat) : (stayDates c n).length = n := by
  induction n generalizing c with
  | zero => rfl
  | succ n ih => simp [stayDates, ih]

lemma mem_stayDates {d c : Int} {n : Nat} :
    d ∈ stayDates c n ↔ c ≤ d ∧ d < c + n := by
  induction n generalizing c with
  | zero => simp [stayDates]
  | succ n ih =>
    simp [stayDates, ih]
    omega

lemma priceLoop_eq (b : ℚ) (rules : List PricingRule) (days : List Int) :
    priceLoop b rules days =
      (((days.map (nightEntry b rules)).map DailyPrice.final_price).sum,
        days.map (nightEntry b rules)) := by
  suffices h : ∀ (t : ℚ) (l : List DailyPrice),
      days.foldl
        (fun acc d =>
          let entry := nightEntry b rules d
          (acc.1 + entry.final_price, acc.2 ++ [entry])) (t, l) =
      (t + ((days.map (nightEntry b rules)).map DailyPrice.final_price).sum,
        l ++ days.map (nightEntry b rules)) by
    simpa [priceLoop] using h 0 []
  induction days with
  | nil => intro t l; simp
  | cons d ds ih =>
    intro t l
    simp [ih, add_assoc]

/-- `List.find?` returns the first element satisfying the predicate: the list
splits into a prefix of non-matching elements, the found element, and a tail. -/
lemma find?_first {α : Type} (p : α → Bool) (l : List α) (a : α)
    (h : l.find? p = some a) :
    ∃ l1 l2, l = l1 ++ a :: l2 ∧ p a = true ∧ ∀ x ∈ l1, p x = false := by
  induction l with
  | nil => simp [List.find?] at h
  | cons x xs ih =>
    by_cases hx : p x = true
    · rw [List.find?_cons_of_pos _ hx] at h
      cases h
      exact ⟨[], xs, rfl, hx, by simp⟩
    · rw [List.find?_cons_of_neg _ hx] at h
      obtain ⟨l1, l2, rfl, hpa, hl1⟩ := ih h
      refine ⟨x :: l1, l2, rfl, hpa, ?_⟩
      intro y hy
      rcases List.mem_cons.mp hy with rfl | hy
      · simpa using hx
      · exact hl1 y hy

/-- What a successful `calculate_price` run contains, read off the source:
the date-range check passed, `nights` is the day difference, the breakdown is
one `nightEntry` per stay date, the total accumulates the nightly prices, and
the average is the guarded quotient. -/
lemma calculate_price_ok {prop : Property} {ci co : Int} {r : PriceBreakdown}
    (h : calculate_price prop ci co = Except.ok r) :
    ci < co ∧
    r.nights = co - ci ∧
    r.currency = prop.currency ∧
    r.daily_breakdown =
      (stayDates ci (co - ci).toNat).map
        (nightEntry prop.base_price_per_night prop.pricing_rules) ∧
    r.total_price = (r.daily_breakdown.map DailyPrice.final_price).sum ∧
    r.average_price_per_night = safeAverage r.total_price r.nights := by
  unfold calculate_price at h
  by_cases hle : co ≤ ci
  · simp [hle] at h
  · simp only [if_neg hle] at h
    obtain rfl := (Except.ok.injEq _ _).mp h
    refine ⟨lt_of_not_ge hle, rfl, rfl, ?_, ?_, rfl⟩
    · simp [priceLoop_eq]
    · simp [priceLoop_eq]

lemma ruleMatches_iff {d : Int} {rule : PricingRule} :
    ruleMatches d rule = true ↔ rule.start_date ≤ d ∧ d ≤ rule.end_date := by
  simp [ruleMatches]

lemma nightEntry_date (b : ℚ) (rules : List PricingRule) (d : Int) :
    (nightEntry b rules d).date = d := rfl

lemma nightEntry_base (b : ℚ) (rules : List PricingRule) (d : Int) :
    (nightEntry b rules d).base_price = b := rfl

lemma nightEntry_mult (b : ℚ) (rules : List PricingRule) (d : Int) :
    (nightEntry b rules d).multiplier = (resolveRule rules d).1 := rfl

lemma nightEntry_final (b : ℚ) (rules : List PricingRule) (d : Int) :
    (nightEntry b rules d).final_price = b * (resolveRule rules d).1 := rfl

lemma nightEntry_label (b : ℚ) (rules : List PricingRule) (d : Int) :
    (nightEntry b rules d).pricing_rule = (resolveRule rules d).2 := rfl

/-- Scenario A evaluated: three base-rate nights at 100, total 300. -/
lemma calc_propA : calculate_price propA 1 4 = Except.ok resA := by
  simp [calculate_price, propA, resA, stayDates, priceLoop, nightEntry,
    resolveRule, ruleMatches, seasonalLabel, safeAverage]
  norm_num

/-- Scenario B evaluated: nights at 100, 150, 150, total 400. -/
lemma calc_propB : calculate_price propB 1 4 = Except.ok resB := by
  simp [calculate_price, propB, resB, stayDates, priceLoop, nightEntry,
    resolveRule, ruleMatches, seasonalLabel, safeAverage]
  norm_num
  rfl

/-- The two-rule property evaluated on the stay [1, 3): the first rule wins
night 1, the second rule's multiplier is never charged. -/
lemma calc_propTwoRules :
    calculate_price propTwoRules 1 3 = Except.ok resTwoRules := by
  simp [calculate_price, propTwoRules, resTwoRules, stayDates, priceLoop,
    nightEntry, resolveRule, ruleMatches, seasonalLabel, safeAverage]
  norm_num
  rfl

/-! ## Claim theorems -/

/-- C10: if either the `check_in` or the `check_out` query parameter is
absent, the availability filter returns its input queryset unchanged. -/
theorem availability_missing_param_noop (queryset : List Property)
    (check_in? check_out? : Option Int)
    (h : check_in? = none ∨ check_out? = none) :
    filter_available_dates queryset check_in? check_out? = queryset := by
  rcases h with rfl | rfl
  · cases check_out? <;> rfl
  · cases check_in? <;> rfl

/-- Witness for C10: a missing check-in leaves the queryset untouched even
though a check-out is supplied. -/
theorem availability_missing_param_noop_witness :
    filter_available_dates [propC] none (some 9) = [propC] :=
  availability_missing_param_noop [propC] none (some 9) (Or.inl rfl)

/-- C4: whenever `check_out ≤ check_in`, `calculate_price` fails with the
invalid-range error and produces no breakdown (the result is the `error`
constructor, which carries no `PriceBreakdown`). -/
theorem invalid_range_error (prop : Property) (check_in check_out : Int)
    (h : check_out ≤ check_in) :
    calculate_price prop check_in check_out =
      Except.error "check_out must be after check_in" := by
  simp [calculate_price, h]

/-- Witness for C4 at Scenario D: an empty range on Scenario A's property. -/
theorem invalid_range_error_witness :
    calculate_price propA 4 4 = Except.error "check_out must be after check_in" :=
  invalid_range_error propA 4 4 (by decide)

/-- C3: a successful `calculate_price` run returns a total equal to the sum
of the nightly prices in the breakdown, a breakdown of exactly
`check_out - check_in` entries (the reported `nights` count), and every
entry dated inside `[check_in, check_out)`, `check_out` excluded. -/
theorem totals_postcondition (prop : Property) (check_in check_out : Int)
    (r : PriceBreakdown)
    (h : calculate_price prop check_in check_out = Except.ok r) :
    r.total_price = (r.daily_breakdown.map DailyPrice.final_price).sum ∧
    (r.daily_breakdown.length : Int) = check_out - check_in ∧
    r.nights = check_out - check_in ∧
    ∀ dp ∈ r.daily_breakdown, check_in ≤ dp.date ∧ dp.date < check_out := by
  obtain ⟨hlt, hn, hcur, hdb, htot, havg⟩ := calculate_price_ok h
  refine ⟨htot, ?_, hn, ?_⟩
  · rw [hdb]
    simp only [List.length_map, stayDates_length]
    omega
  · intro dp hdp
    rw [hdb] at hdp
    obtain ⟨d, hd, rfl⟩ := List.mem_map.mp hdp
    have hmem := mem_stayDates.mp hd
    rw [nightEntry_date]
    omega

/-- Witness for C3 at Scenario A: base price 100, no rules, stay [1, 4). -/
theorem totals_postcondition_witness :
    resA.total_price = (resA.daily_breakdown.map DailyPrice.final_price).sum ∧
    (resA.daily_breakdown.length : Int) = 4 - 1 :=
  ⟨(totals_postcondition propA 1 4 resA calc_propA).1,
   (totals_postcondition propA 1 4 resA calc_propA).2.1⟩

/-- C5: the average computation is guarded against a zero divisor: at
`nights = 0` it returns 0 outright, for positive `nights` it is the exact
quotient `total / nights`; and every successful `calculate_price` run has
`nights > 0` with its average equal to that quotient. -/
theorem division_by_zero_guard :
    (∀ t : ℚ, safeAverage t 0 = 0) ∧
    (∀ (t : ℚ) (n : Int), 0 < n → safeAverage t n = t / (n : ℚ)) ∧
    (∀ (prop : Property) (check_in check_out : Int) (r : PriceBreakdown),
      calculate_price prop check_in check_out = Except.ok r →
        0 < r.nights ∧
        r.average_price_per_night = r.total_price / (r.nights : ℚ)) := by
  refine ⟨fun t => by simp [safeAverage],
    fun t n hn => by simp [safeAverage, hn], ?_⟩
  intro prop ci co r h
  obtain ⟨hlt, hn, _, _, _, havg⟩ := calculate_price_ok h
  have hpos : 0 < r.nights := by omega
  exact ⟨hpos, by rw [havg, safeAverage, if_pos hpos]⟩

/-- Witness for C5: the guard at zero nights, and the exact quotient for a
three-night total of 6. -/
theorem division_by_zero_guard_witness :
    safeAverage 5 0 = 0 ∧ safeAverage 6 3 = 6 / ((3 : Int) : ℚ) :=
  ⟨division_by_zero_guard.1 5, division_by_zero_guard.2.1 6 3 (by decide)⟩

/-- C2: in a successful run, every breakdown entry carries the property's
base price, a final price equal to base price times the entry's multiplier,
and a multiplier resolved by first match: either the rule list splits as
`l1 ++ rule :: l2` where `rule` covers the entry's date, nothing in the
prefix `l1` covers it, and the entry carries that rule's multiplier and
seasonal label; or no rule covers the date and the entry is the base rate
with multiplier 1 and label "Base Rate". -/
theorem first_match_rule_resolution (prop : Property) (check_in check_out : Int)
    (r : PriceBreakdown)
    (h : calculate_price prop check_in check_out = Except.ok r) :
    ∀ dp ∈ r.daily_breakdown,
      dp.base_price = prop.base_price_per_night ∧
      dp.final_price = prop.base_price_per_night * dp.multiplier ∧
      ((∃ l1 rule l2, prop.pricing_rules = l1 ++ rule :: l2 ∧
          rule.start_date ≤ dp.date ∧ dp.date ≤ rule.end_date ∧
          (∀ r' ∈ l1, ¬ (r'.start_date ≤ dp.date ∧ dp.date ≤ r'.end_date)) ∧
          dp.multiplier = rule.price_multiplier ∧
          dp.pricing_rule = seasonalLabel rule) ∨
        ((∀ r' ∈ prop.pricing_rules,
            ¬ (r'.start_date ≤ dp.date ∧ dp.date ≤ r'.end_date)) ∧
          dp.multiplier = 1 ∧ dp.pricing_rule = "Base Rate")) := by
  intro dp hdp
  obtain ⟨hlt, hn, hcur, hdb, htot, havg⟩ := calculate_price_ok h
  rw [hdb] at hdp
  obtain ⟨d, hd, rfl⟩ := List.mem_map.mp hdp
  rw [nightEntry_base, nightEntry_final, nightEntry_mult, nightEntry_label,
    nightEntry_date]
  refine ⟨rfl, rfl, ?_⟩
  rcases hfind : prop.pricing_rules.find? (ruleMatches d) with _ | rule
  · right
    refine ⟨?_, ?_, ?_⟩
    · intro r' hr' hcontra
      have hno := List.find?_eq_none.mp hfind r' hr'
      exact hno (ruleMatches_iff.mpr hcontra)
    · simp [resolveRule, hfind]
    · simp [resolveRule, hfind]
  · left
    obtain ⟨l1, l2, hsplit, hpa, hl1⟩ := find?_first _ _ _ hfind
    obtain ⟨hs, he⟩ := ruleMatches_iff.mp hpa
    refine ⟨l1, rule, l2, hsplit, hs, he, ?_, ?_, ?_⟩
    · intro r' hr' hcontra
      have h1 := hl1 r' hr'
      have h2 := ruleMatches_iff.mpr hcontra
      rw [h1] at h2
      exact Bool.false_ne_true h2
    · simp [resolveRule, hfind]
    · simp [resolveRule, hfind]

/-- Witness for C2 at Scenario B: the night of day 2 (2025-12-02) carries
the base price and base-times-multiplier final price. -/
theorem first_match_rule_resolution_witness :
    (⟨2, 100, 3 / 2, 150, "Seasonal (2 to 3)"⟩ : DailyPrice).base_price =
        propB.base_price_per_night ∧
    (⟨2, 100, 3 / 2, 150, "Seasonal (2 to 3)"⟩ : DailyPrice).final_price =
        propB.base_price_per_night *
          (⟨2, 100, 3 / 2, 150, "Seasonal (2 to 3)"⟩ : DailyPrice).multiplier :=
  ⟨(first_match_rule_resolution propB 1 4 resB calc_propB
      ⟨2, 100, 3 / 2, 150, "Seasonal (2 to 3)"⟩ (by simp [resB])).1,
   (first_match_rule_resolution propB 1 4 resB calc_propB
      ⟨2, 100, 3 / 2, 150, "Seasonal (2 to 3)"⟩ (by simp [resB])).2.1⟩

/-- C6, Scenario B: base price 100.00 and the single rule
{start=2025-12-02, end=2025-12-03, multiplier=1.5} on the stay
check_in=2025-12-01, check_out=2025-12-04 (days 1 and 4 in the day-number
encoding) give nights=3, nightly prices 100, 150, 150 and total 400.00 —
`resB` spells out exactly that breakdown. -/
theorem scenario_b_concrete : calculate_price propB 1 4 = Except.ok resB :=
  calc_propB

/-- C7 counterexample: `propTwoRules` has the rule ⟨1, 1, 3⟩ with
start_date = end_date = check_in = 1, yet on the stay [1, 3) its
multiplier 3 is applied to zero nights, not exactly one: the earlier rule
⟨1, 1, 2⟩ wins night 1 by first match. -/
theorem single_night_rule_counterexample :
    calculate_price propTwoRules 1 3 = Except.ok resTwoRules ∧
    (⟨1, 1, 3⟩ : PricingRule) ∈ propTwoRules.pricing_rules ∧
    nightsUsingMultiplier resTwoRules 3 = 0 :=
  ⟨calc_propTwoRules, by decide, by simp [nightsUsingMultiplier, resTwoRules]⟩

/-- C7 amended: a rule with start_date = end_date = check_in matches exactly
the check_in night of the stay and no other night. When it is the first rule
in the scanned order matching check_in, the check_in night is priced with its
multiplier and seasonal label and it is never the rule selected for any other
night; when an earlier, different rule wins the first match at check_in, the
check_in entries carry that earlier rule's multiplier and label and the
preempted rule is the selected rule for no night of the stay. -/
theorem single_night_rule_amended (rule : PricingRule) (check_in check_out : Int)
    (h1 : rule.start_date = check_in) (h2 : rule.end_date = check_in)
    (h3 : check_in < check_out) :
    (stayDates check_in (check_out - check_in).toNat).filter
        (fun d => ruleMatches d rule) = [check_in] ∧
    (∀ (prop : Property) (r : PriceBreakdown),
      prop.pricing_rules.find? (ruleMatches check_in) = some rule →
      calculate_price prop check_in check_out = Except.ok r →
      ∀ dp ∈ r.daily_breakdown,
        (dp.date = check_in → dp.multiplier = rule.price_multiplier ∧
          dp.pricing_rule = seasonalLabel rule) ∧
        (dp.date ≠ check_in →
          prop.pricing_rules.find? (ruleMatches dp.date) ≠ some rule)) ∧
    (∀ (prop : Property) (r0 : PricingRule) (r : PriceBreakdown),
      prop.pricing_rules.find? (ruleMatches check_in) = some r0 →
      r0 ≠ rule →
      calculate_price prop check_in check_out = Except.ok r →
      (∀ dp ∈ r.daily_breakdown, dp.date = check_in →
        dp.multiplier = r0.price_multiplier ∧
        dp.pricing_rule = seasonalLabel r0) ∧
      ∀ d ∈ stayDates check_in (check_out - check_in).toNat,
        prop.pricing_rules.find? (ruleMatches d) ≠ some rule) := by
  have hmatch : ruleMatches check_in rule = true :=
    ruleMatches_iff.mpr ⟨le_of_eq h1, le_of_eq h2.symm⟩
  have hnot : ∀ d : Int, d ≠ check_in → ruleMatches d rule = false := by
    intro d hd
    rcases Bool.eq_false_or_eq_true (ruleMatches d rule) with hb | hb
    · obtain ⟨ha, hbnd⟩ := ruleMatches_iff.mp hb
      rw [h1] at ha
      rw [h2] at hbnd
      omega
    · exact hb
  have hnosel : ∀ (rules : List PricingRule) (d : Int), d ≠ check_in →
      rules.find? (ruleMatches d) ≠ some rule := by
    intro rules d hd hcontra
    have hm := List.find?_some hcontra
    rw [hnot d hd] at hm
    exact Bool.false_ne_true hm
  refine ⟨?_, ?_, ?_⟩
  · have hpos : (check_out - check_in).toNat =
        ((check_out - check_in).toNat - 1) + 1 := by omega
    rw [hpos]
    simp only [stayDates, List.filter_cons, hmatch, if_pos]
    have hnil : (stayDates (check_in + 1)
        ((check_out - check_in).toNat - 1)).filter
          (fun d => ruleMatches d rule) = [] := by
      rw [List.filter_eq_nil_iff]
      intro d hd
      have hm := mem_stayDates.mp hd
      simp [hnot d (by omega)]
    rw [hnil]
  · intro prop r hfind hcalc dp hdp
    obtain ⟨hlt, hn, hcur, hdb, htot, havg⟩ := calculate_price_ok hcalc
    rw [hdb] at hdp
    obtain ⟨d, hd, rfl⟩ := List.mem_map.mp hdp
    rw [nightEntry_date, nightEntry_mult, nightEntry_label]
    constructor
    · intro hdeq
      subst hdeq
      constructor
      · simp [resolveRule, hfind]
      · simp [resolveRule, hfind]
    · intro hdneq
      exact hnosel _ d hdneq
  · intro prop r0 r hfind0 hne hcalc
    constructor
    · intro dp hdp hdeq
      obtain ⟨hlt, hn, hcur, hdb, htot, havg⟩ := calculate_price_ok hcalc
      rw [hdb] at hdp
      obtain ⟨d, hd, rfl⟩ := List.mem_map.mp hdp
      rw [nightEntry_date] at hdeq
      subst hdeq
      rw [nightEntry_mult, nightEntry_label]
      constructor
      · simp [resolveRule, hfind0]
      · simp [resolveRule, hfind0]
    · intro d hd hcontra
      by_cases hdeq : d = check_in
      · subst hdeq
        rw [hfind0] at hcontra
        exact hne (Option.some.inj hcontra)
      · exact hnosel _ d hdeq hcontra

/-- Witness for the amended C7: the rule ⟨1, 1, 3/2⟩ on the stay [1, 4)
matches day 1 only; and on `propTwoRules` the preempted rule ⟨1, 1, 3⟩ is not
the rule selected for night 2 of the stay [1, 3). -/
theorem single_night_rule_amended_witness :
    (stayDates 1 ((4 : Int) - 1).toNat).filter
        (fun d => ruleMatches d ⟨1, 1, 3 / 2⟩) = [1] ∧
    propTwoRules.pricing_rules.find? (ruleMatches 2) ≠ some ⟨1, 1, 3⟩ :=
  ⟨(single_night_rule_amended ⟨1, 1, 3 / 2⟩ 1 4 rfl rfl (by decide)).1,
   ((single_night_rule_amended ⟨1, 1, 3⟩ 1 3 rfl rfl (by decide)).2.2
      propTwoRules ⟨1, 1, 2⟩ resTwoRules (by decide) (by decide)
      calc_propTwoRules).2 2 (by decide)⟩

/-- C8: the pricing endpoint is deterministic and pure: the stored data
passes through unchanged, and a second invocation on the (unchanged) store
with the same dates returns the same result as the first. -/
theorem pricing_determinism_and_purity (store : Property)
    (check_in check_out : Int) :
    (calculate_price_endpoint store check_in check_out).2 = store ∧
    (calculate_price_endpoint
        (calculate_price_endpoint store check_in check_out).2
        check_in check_out).1 =
      (calculate_price_endpoint store check_in check_out).1 :=
  ⟨rfl, rfl⟩

/-- C9: when the rule list is sorted by ascending `start_date` (the model's
`Meta.ordering = ['start_date']` default), the rule selected by first match
for a night both covers that night and has a `start_date` no later than any
other rule covering it — the earliest `start_date` wins. -/
theorem earliest_start_date_wins (rules : List PricingRule) (d : Int)
    (rule : PricingRule)
    (hsorted : rules.Pairwise (fun a b => a.start_date ≤ b.start_date))
    (hfind : rules.find? (ruleMatches d) = some rule) :
    resolveRule rules d = (rule.price_multiplier, seasonalLabel rule) ∧
    rule.start_date ≤ d ∧ d ≤ rule.end_date ∧
    ∀ r' ∈ rules, r'.start_date ≤ d → d ≤ r'.end_date →
      rule.start_date ≤ r'.start_date := by
  obtain ⟨l1, l2, hsplit, hpa, hl1⟩ := find?_first _ _ _ hfind
  obtain ⟨hs, he⟩ := ruleMatches_iff.mp hpa
  refine ⟨by simp [resolveRule, hfind], hs, he, ?_⟩
  intro r' hr' hs' he'
  subst hsplit
  rcases List.mem_append.mp hr' with hmem | hmem
  · have hfalse := hl1 r' hmem
    have htrue := ruleMatches_iff.mpr ⟨hs', he'⟩
    rw [hfalse] at htrue
    exact absurd htrue Bool.false_ne_true
  · rcases List.mem_cons.mp hmem with rfl | hmem
    · exact le_refl _
    · have hp := (List.pairwise_append.mp hsorted).2.1
      exact (List.pairwise_cons.mp hp).1 r' hmem

/-- Witness for C9: with rules sorted as [⟨1,5,2⟩, ⟨2,3,3⟩], day 2 is
covered by both but resolves to the rule starting on day 1. -/
theorem earliest_start_date_wins_witness :
    resolveRule [⟨1, 5, 2⟩, ⟨2, 3, 3⟩] 2 =
      ((⟨1, 5, 2⟩ : PricingRule).price_multiplier, seasonalLabel ⟨1, 5, 2⟩) :=
  (earliest_start_date_wins [⟨1, 5, 2⟩, ⟨2, 3, 3⟩] 2 ⟨1, 5, 2⟩
    (by decide) (by decide)).1

end Rentals
